import Mathlib

/-!
Verification development for the relay-depository Solana programs
(`relay-depository` and `deposit-address`).

The Rust/Anchor programs are shallowly embedded: account keys are natural
numbers, byte strings are lists of naturals, and each instruction handler
becomes a total Lean function from its accounts and arguments to a new state
together with an `Except` result.  The Solana runtime's transaction semantics
(all account mutations of a failing instruction are rolled back) is made
explicit by a wrapper that returns the original state whenever the handler
errs.  Anchor's account-resolution layer is modelled where it is decisive:
an `#[account(init, ...)]` constraint fails when the account already exists
(the system program's account-already-in-use failure), and the freshly
created account is zero-initialized.
-/

set_option maxRecDepth 100000

deriving instance DecidableEq for Except

-- ---------------------------------------------------------------------------
-- Basic types and program constants
-- ---------------------------------------------------------------------------

/-- Account addresses (ed25519 public keys) are modelled as natural numbers;
`0` stands for the all-zero key produced by `Pubkey::default()`. -/
abbrev Pubkey := Nat

/-- The ed25519 signature-verification native program id. -/
def ED25519_PROGRAM_ID : Pubkey := 1001

/-- The SPL Token program id (`anchor_spl::token::ID`). -/
def TOKEN_PROGRAM_ID : Pubkey := 1002

/-- The SPL Token-2022 program id (`anchor_spl::token_2022::ID`). -/
def TOKEN_2022_PROGRAM_ID : Pubkey := 1003

/-- The relay-depository program id (`crate::ID`, from `declare_id!`). -/
def RELAY_DEPOSITORY_PROGRAM_ID : Pubkey := 1004

/-- The hard-coded bootstrap identity `AUTHORIZED_PUBKEY` shared by both
programs. -/
def AUTHORIZED_PUBKEY : Pubkey := 1005

/-- `DOMAIN_NAME = b"RelayDepository"` as bytes. -/
def DOMAIN_NAME : List Nat :=
  [82, 101, 108, 97, 121, 68, 101, 112, 111, 115, 105, 116, 111, 114, 121]

/-- `DOMAIN_VERSION = b"1"` as bytes. -/
def DOMAIN_VERSION : List Nat := [49]

-- ---------------------------------------------------------------------------
-- Byte encodings and the hash model
-- ---------------------------------------------------------------------------

/-- The 32-byte little-endian encoding of a public key
(`Pubkey::to_bytes`). -/
def pubkeyBytes (p : Pubkey) : List Nat :=
  (List.range 32).map (fun i => p / 256 ^ i % 256)

/-- Borsh little-endian encoding of a `u64`. -/
def u64le (n : Nat) : List Nat :=
  (List.range 8).map (fun i => n / 256 ^ i % 256)

/-- Borsh little-endian two's-complement encoding of an `i64`. -/
def i64le (n : Int) : List Nat :=
  u64le (n % (2 ^ 64 : Nat)).toNat

/-- SHA-256 over a byte list, modelled as an injective 32-element digest: the
input length and the base-256 packing of the input occupy the first two
elements and the remaining 30 elements are zero.  The development relies only
on the digest being a function of the input and having 32 elements, matching
`solana_program::hash::Hash::to_bytes`. -/
def sha256Bytes (l : List Nat) : List Nat :=
  l.length :: l.foldl (fun acc b => acc * 256 + b) 0 :: List.replicate 30 0

-- ---------------------------------------------------------------------------
-- TransferRequest and its serialization (lib.rs `TransferRequest`)
-- ---------------------------------------------------------------------------

/-- The allocator-signed transfer request (relay-depository
`TransferRequest`). -/
structure TransferRequest where
  domain : List Nat
  recipient : Pubkey
  token : Option Pubkey
  amount : Nat
  nonce : Nat
  expiration : Int
deriving DecidableEq

/-- Borsh serialization of a `TransferRequest` (`try_to_vec`): the 32 domain
bytes, the recipient key, the `Option<Pubkey>` token tag, then `amount`,
`nonce` and `expiration` in little-endian. -/
def serializeRequest (r : TransferRequest) : List Nat :=
  r.domain ++ pubkeyBytes r.recipient ++
    (match r.token with
     | none => [0]
     | some m => 1 :: pubkeyBytes m) ++
    u64le r.amount ++ u64le r.nonce ++ i64le r.expiration

/-- `TransferRequest::get_hash`: the SHA-256 digest of the serialized
request, used both for signature verification and for the replay-record
PDA seed. -/
def TransferRequest.get_hash (r : TransferRequest) : List Nat :=
  sha256Bytes (serializeRequest r)

/-- `create_domain_separator`: hash of name, version, chain id and program
id concatenated. -/
def create_domain_separator (name version chain_id : List Nat)
    (program_id : Pubkey) : List Nat :=
  sha256Bytes (name ++ version ++ chain_id ++ pubkeyBytes program_id)

-- ---------------------------------------------------------------------------
-- Errors
-- ---------------------------------------------------------------------------

/-- The relay-depository `CustomError` codes. -/
inductive CustomError where
  | TransferRequestAlreadyUsed
  | InvalidMint
  | InvalidTokenProgram
  | Unauthorized
  | AllocatorSignerMismatch
  | MessageMismatch
  | MalformedEd25519Data
  | MissingSignature
  | SignatureExpired
  | InvalidRecipient
  | InvalidVaultTokenAccount
  | InsufficientVaultBalance
  | InvalidDomainSeparator
  | DomainSeparatorAlreadySet
deriving DecidableEq

/-- All failures a relay-depository instruction can surface: a program
`CustomError`, the system program's account-already-in-use failure raised by
Anchor's `init` constraint when the PDA already exists, or a failure of an
invoked external program (system transfer or token transfer). -/
inductive TxErr where
  | custom : CustomError → TxErr
  | accountInUse : TxErr
  | cpiFailed : TxErr
deriving DecidableEq

-- ---------------------------------------------------------------------------
-- Depository state
-- ---------------------------------------------------------------------------

/-- The `RelayDepository` config account. -/
structure RelayDepositoryAccount where
  owner : Pubkey
  allocator : Pubkey
  vault_bump : Nat
  domain_separator : Option (List Nat)
deriving DecidableEq

/-- On-chain state owned by the relay-depository program: the config account,
the vault's lamport balance, the vault's token balance per mint (its
associated token account for that mint), and the `UsedRequest` replay-record
store.  `usedRequests h = none` means no record account exists for request
hash `h`; `some b` means the account exists with `is_used = b`. -/
structure DepState where
  rd : RelayDepositoryAccount
  vaultLamports : Nat
  vaultToken : Pubkey → Nat
  usedRequests : List Nat → Option Bool

-- ---------------------------------------------------------------------------
-- Ed25519 signature-instruction validation (lib.rs lines 868-933)
-- ---------------------------------------------------------------------------

/-- A raw instruction as read back from the instructions sysvar. -/
structure SolInstruction where
  program_id : Pubkey
  accounts : List Pubkey
  data : List Nat
deriving DecidableEq

/-- `u16::from_le_bytes` of the two data bytes at offset `i`. -/
def u16leAt (data : List Nat) (i : Nat) : Nat :=
  data.getD i 0 + 256 * data.getD (i + 1) 0

/-- `validate_ed25519_signature_instruction`: checks the co-located ed25519
instruction targets the ed25519 program, has the strict 144-byte single
signature layout with wildcard index sentinels, embeds the expected signer
key at offset 16, and embeds the request hash as its message. -/
def validate_ed25519_signature_instruction (signature_ix : SolInstruction)
    (expected_signer : Pubkey) (expected_request : TransferRequest) :
    Except CustomError Unit :=
  if signature_ix.program_id = ED25519_PROGRAM_ID then
    if signature_ix.accounts = [] ∧ signature_ix.data.length = 144 then
      let data := signature_ix.data
      let num_signatures := data.getD 0 0
      let padding := data.getD 1 0
      let sig_off := u16leAt data 2
      let sig_idx := u16leAt data 4
      let pk_off := u16leAt data 6
      let pk_idx := u16leAt data 8
      let msg_off := u16leAt data 10
      let msg_len := u16leAt data 12
      let msg_idx := u16leAt data 14
      if num_signatures = 1 ∧ padding = 0 ∧ sig_idx = 65535 ∧ pk_idx = 65535 ∧
          msg_idx = 65535 ∧ pk_off = 16 ∧ sig_off = 48 then
        if data.length ≥ pk_off + 32 then
          if data.length ≥ sig_off + 64 then
            if data.length ≥ msg_off + msg_len then
              if (data.drop pk_off).take 32 = pubkeyBytes expected_signer then
                if (data.drop msg_off).take msg_len
                    = expected_request.get_hash then
                  .ok ()
                else .error .MessageMismatch
              else .error .AllocatorSignerMismatch
            else .error .MalformedEd25519Data
          else .error .MalformedEd25519Data
        else .error .MalformedEd25519Data
      else .error .MalformedEd25519Data
    else .error .MalformedEd25519Data
  else .error .MissingSignature

/-- The full strict-layout condition of the verifier, for stating its
characterization: no referenced accounts, 144 data bytes, the header fields
(one signature, zero padding, wildcard indices, public key at 16, signature
at 48), and the message slice in bounds. -/
def ed25519LayoutOk (ix : SolInstruction) : Prop :=
  ix.accounts = [] ∧ ix.data.length = 144 ∧
  ix.data.getD 0 0 = 1 ∧ ix.data.getD 1 0 = 0 ∧
  u16leAt ix.data 4 = 65535 ∧ u16leAt ix.data 8 = 65535 ∧
  u16leAt ix.data 14 = 65535 ∧ u16leAt ix.data 6 = 16 ∧
  u16leAt ix.data 2 = 48 ∧
  u16leAt ix.data 10 + u16leAt ix.data 12 ≤ 144

instance (ix : SolInstruction) : Decidable (ed25519LayoutOk ix) := by
  unfold ed25519LayoutOk; infer_instance

-- ---------------------------------------------------------------------------
-- execute_transfer (lib.rs lines 303-442)
-- ---------------------------------------------------------------------------

/-- The mint account as seen by `execute_transfer` and `deposit_token`: its
address, its owning token program, its decimals and, for Token-2022 mints,
the optional transfer-fee extension. -/
structure TransferFeeConfigInfo where
  transfer_fee_basis_points : Nat
  maximum_fee : Nat
deriving DecidableEq

/-- Mint account data used by the handlers. -/
structure MintAccountInfo where
  key : Pubkey
  owner : Pubkey
  decimals : Nat
  transfer_fee_config : Option TransferFeeConfigInfo
deriving DecidableEq

/-- A token account's fields read by `execute_transfer` (only the authority
is inspected). -/
structure TokenAccountInfo where
  owner : Pubkey
deriving DecidableEq

/-- The accounts and sysvar data supplied to one `execute_transfer` call.
`cur_index` and `prev_ix` model the instructions sysvar: the current
instruction's index and the instruction found at index `cur_index - 1`
(`none` when the load fails). -/
structure ExecuteTransferCtx where
  executor : Pubkey
  recipient : Pubkey
  mint : Option MintAccountInfo
  recipient_token_account : Option TokenAccountInfo
  vault_token_account_present : Bool
  token_program : Pubkey
  cur_index : Nat
  prev_ix : Option SolInstruction
deriving DecidableEq

/-- `TransferExecutedEvent`; `id` is the used-request PDA, identified here by
its request-hash seed. -/
structure TransferExecutedEvent where
  id : List Nat
  request : TransferRequest
  executor : Pubkey
deriving DecidableEq

/-- `DepositEvent`. -/
structure DepositEvent where
  depositor : Pubkey
  token : Option Pubkey
  amount : Nat
  id : List Nat
deriving DecidableEq

/-- Anchor `init` on the used-request PDA: the record is created with
zero-initialized data (`is_used = false`). -/
def initUsed (s : DepState) (h : List Nat) : DepState :=
  { s with usedRequests := fun h2 => if h2 = h then some false else s.usedRequests h2 }

/-- `used_request.is_used = true` (lib.rs line 344). -/
def setUsed (s : DepState) (h : List Nat) : DepState :=
  { s with usedRequests := fun h2 => if h2 = h then some true else s.usedRequests h2 }

/-- Lines 344-441 of `execute_transfer`: mark the replay record used, then
branch on the token type, performing the recipient, balance and token-binding
checks and the vault debit of that branch.  `min_rent` is
`Rent::minimum_balance(0)`. -/
def executeTransferCommit (ctx : ExecuteTransferCtx) (min_rent : Nat)
    (request : TransferRequest) (h : List Nat) (sInit : DepState) :
    Except TxErr TransferExecutedEvent × DepState :=
  let s1 := setUsed sInit h
  match request.token with
  | none =>
    if ctx.recipient = request.recipient then
      let vault_balance := s1.vaultLamports
      let max_transferable := vault_balance - min_rent
      if request.amount ≤ max_transferable then
        (.ok { id := h, request := request, executor := ctx.executor },
         { s1 with vaultLamports := s1.vaultLamports - request.amount })
      else (.error (.custom .InsufficientVaultBalance), s1)
    else (.error (.custom .InvalidRecipient), s1)
  | some token_mint =>
    match ctx.mint with
    | none => (.error (.custom .InvalidMint), s1)
    | some mint =>
      if token_mint = mint.key then
        if ctx.vault_token_account_present then
          match ctx.recipient_token_account with
          | none => (.error (.custom .InvalidMint), s1)
          | some rta =>
            if rta.owner = request.recipient then
              if ctx.token_program = TOKEN_PROGRAM_ID ∨
                  ctx.token_program = TOKEN_2022_PROGRAM_ID then
                if mint.owner = ctx.token_program then
                  if request.amount ≤ s1.vaultToken token_mint then
                    (.ok { id := h, request := request, executor := ctx.executor },
                     { s1 with vaultToken := fun k =>
                         if k = token_mint then s1.vaultToken k - request.amount
                         else s1.vaultToken k })
                  else (.error .cpiFailed, s1)
                else (.error (.custom .InvalidMint), s1)
              else (.error (.custom .InvalidTokenProgram), s1)
            else (.error (.custom .InvalidRecipient), s1)
        else (.error (.custom .InvalidMint), s1)
      else (.error (.custom .InvalidMint), s1)

/-- The `execute_transfer` handler together with Anchor's account resolution,
before the runtime's rollback is applied: the used-request PDA is
`init`-created (failing with the account-already-in-use error when it
exists), then the body runs its guards in source order, mutating the threaded
state as the source does. -/
def executeTransferRaw (ctx : ExecuteTransferCtx) (now : Int) (min_rent : Nat)
    (request : TransferRequest) (s : DepState) :
    Except TxErr TransferExecutedEvent × DepState :=
  let h := request.get_hash
  match s.usedRequests h with
  | some _ => (.error .accountInUse, s)
  | none =>
    let sInit := initUsed s h
    let used_request_is_used : Bool := false
    if used_request_is_used then
      (.error (.custom .TransferRequestAlreadyUsed), sInit)
    else if now < request.expiration then
      if 0 < ctx.cur_index then
        match ctx.prev_ix with
        | none => (.error .cpiFailed, sInit)
        | some signature_ix =>
          match validate_ed25519_signature_instruction signature_ix
              s.rd.allocator request with
          | .error e => (.error (.custom e), sInit)
          | .ok _ =>
            match s.rd.domain_separator with
            | some expected_domain =>
              if request.domain = expected_domain then
                executeTransferCommit ctx min_rent request h sInit
              else (.error (.custom .InvalidDomainSeparator), sInit)
            | none => executeTransferCommit ctx min_rent request h sInit
      else (.error (.custom .MalformedEd25519Data), sInit)
    else (.error (.custom .SignatureExpired), sInit)

/-- One `execute_transfer` call as observed on chain: the handler runs as one
atomic unit, and on failure the runtime rolls every account mutation back,
leaving the original state. -/
def execute_transfer (ctx : ExecuteTransferCtx) (now : Int) (min_rent : Nat)
    (request : TransferRequest) (s : DepState) :
    DepState × Except TxErr TransferExecutedEvent :=
  match executeTransferRaw ctx now min_rent request s with
  | (.ok ev, s2) => (s2, .ok ev)
  | (.error e, _) => (s, .error e)

-- ---------------------------------------------------------------------------
-- The guard cascade written from the specified (amended) check order
-- ---------------------------------------------------------------------------

/-- Guard order of the per-token-type checks, written from the amended
specification: for native transfers, recipient binding then solvency; for
token transfers, the mint presence and mint-match checks, then the recipient
binding, then the token-program and mint-owner checks, then solvency of the
vault's token balance. -/
def tokenGuardError (ctx : ExecuteTransferCtx) (min_rent : Nat)
    (request : TransferRequest) (s : DepState) : Option TxErr :=
  match request.token with
  | none =>
    if ctx.recipient = request.recipient then
      if request.amount ≤ s.vaultLamports - min_rent then none
      else some (.custom .InsufficientVaultBalance)
    else some (.custom .InvalidRecipient)
  | some token_mint =>
    match ctx.mint with
    | none => some (.custom .InvalidMint)
    | some mint =>
      if token_mint = mint.key then
        if ctx.vault_token_account_present then
          match ctx.recipient_token_account with
          | none => some (.custom .InvalidMint)
          | some rta =>
            if rta.owner = request.recipient then
              if ctx.token_program = TOKEN_PROGRAM_ID ∨
                  ctx.token_program = TOKEN_2022_PROGRAM_ID then
                if mint.owner = ctx.token_program then
                  if request.amount ≤ s.vaultToken token_mint then none
                  else some .cpiFailed
                else some (.custom .InvalidMint)
              else some (.custom .InvalidTokenProgram)
            else some (.custom .InvalidRecipient)
        else some (.custom .InvalidMint)
      else some (.custom .InvalidMint)

/-- The first violated guard of an `execute_transfer` call, written from the
specified order: replay, expiration, signature, domain, then the per-token
checks of `tokenGuardError`.  Returns `none` when every guard passes. -/
def transferGuardError (ctx : ExecuteTransferCtx) (now : Int) (min_rent : Nat)
    (request : TransferRequest) (s : DepState) : Option TxErr :=
  if (s.usedRequests request.get_hash).isSome then some .accountInUse
  else if now < request.expiration then
    if 0 < ctx.cur_index then
      match ctx.prev_ix with
      | none => some .cpiFailed
      | some six =>
        match validate_ed25519_signature_instruction six s.rd.allocator request with
        | .error e => some (.custom e)
        | .ok _ =>
          match s.rd.domain_separator with
          | some expected =>
            if request.domain = expected then
              tokenGuardError ctx min_rent request s
            else some (.custom .InvalidDomainSeparator)
          | none => tokenGuardError ctx min_rent request s
    else some (.custom .MalformedEd25519Data)
  else some (.custom .SignatureExpired)

/-- The committed effect when every guard passes: the replay record for the
request hash exists and is marked used, and the vault is debited by the
requested amount (lamports for native, the mint's token balance for token
transfers). -/
def commitTransfer (request : TransferRequest) (s : DepState) : DepState :=
  let s1 := setUsed s request.get_hash
  match request.token with
  | none => { s1 with vaultLamports := s1.vaultLamports - request.amount }
  | some m =>
    { s1 with vaultToken := fun k =>
        if k = m then s1.vaultToken k - request.amount else s1.vaultToken k }

/-- Check-everything-then-commit semantics written from the specification:
all guards are evaluated first in the specified order, and only if none is
violated are the replay record marked, the debit performed and the execution
record emitted. -/
def executeTransferSpec (ctx : ExecuteTransferCtx) (now : Int) (min_rent : Nat)
    (request : TransferRequest) (s : DepState) :
    DepState × Except TxErr TransferExecutedEvent :=
  match transferGuardError ctx now min_rent request s with
  | some e => (s, .error e)
  | none =>
    (commitTransfer request s,
     .ok { id := request.get_hash, request := request, executor := ctx.executor })

-- ---------------------------------------------------------------------------
-- The remaining relay-depository instructions
-- ---------------------------------------------------------------------------

/-- `initialize(chain_id)`: rejected unless the paying owner is the
hard-coded `AUTHORIZED_PUBKEY` (the `constraint` on the `owner` account);
otherwise the config account is created with the given owner and allocator,
the vault bump, and the domain separator computed from `DOMAIN_NAME`,
`DOMAIN_VERSION`, the chain id and the program id.  `vaultLamports` is the
vault PDA's pre-existing balance; no replay records exist yet. -/
def initialize_op (owner allocator : Pubkey) (vault_bump : Nat)
    (chain_id : List Nat) (vaultLamports : Nat) : Except CustomError DepState :=
  if owner = AUTHORIZED_PUBKEY then
    .ok
      { rd :=
          { owner := owner
            allocator := allocator
            vault_bump := vault_bump
            domain_separator := some (create_domain_separator DOMAIN_NAME
              DOMAIN_VERSION chain_id RELAY_DEPOSITORY_PROGRAM_ID) }
        vaultLamports := vaultLamports
        vaultToken := fun _ => 0
        usedRequests := fun _ => none }
  else .error .Unauthorized

/-- `set_allocator(new_allocator)`: owner-gated allocator rotation. -/
def set_allocator (signer new_allocator : Pubkey) (s : DepState) :
    DepState × Except TxErr Unit :=
  if signer = s.rd.owner then
    ({ s with rd := { s.rd with allocator := new_allocator } }, .ok ())
  else (s, .error (.custom .Unauthorized))

/-- `set_owner(new_owner)`: owner-gated ownership transfer. -/
def set_owner (signer new_owner : Pubkey) (s : DepState) :
    DepState × Except TxErr Unit :=
  if signer = s.rd.owner then
    ({ s with rd := { s.rd with owner := new_owner } }, .ok ())
  else (s, .error (.custom .Unauthorized))

/-- `migrate_domain_separator(chain_id)`: the owner check runs first, then
the instruction requires that no domain separator is set yet, and only then
stores the computed separator. -/
def migrate_domain_separator (signer : Pubkey) (chain_id : List Nat)
    (s : DepState) : DepState × Except TxErr Unit :=
  if signer = s.rd.owner then
    match s.rd.domain_separator with
    | some _ => (s, .error (.custom .DomainSeparatorAlreadySet))
    | none =>
      let sep := create_domain_separator DOMAIN_NAME DOMAIN_VERSION chain_id
        RELAY_DEPOSITORY_PROGRAM_ID
      ({ s with rd := { s.rd with domain_separator := some sep } }, .ok ())
  else (s, .error (.custom .Unauthorized))

/-- `deposit_native(amount, id)`: a system-program transfer of `amount`
lamports from the signing sender to the vault (failing when the sender's
balance is insufficient), then a `DepositEvent` crediting `depositor`. -/
def deposit_native (amount : Nat) (id : List Nat) (depositor : Pubkey)
    (sender_lamports : Nat) (s : DepState) : DepState × Except TxErr DepositEvent :=
  if amount ≤ sender_lamports then
    ({ s with vaultLamports := s.vaultLamports + amount },
     .ok { depositor := depositor, token := none, amount := amount, id := id })
  else (s, .error .cpiFailed)

/-- `get_transfer_fee`: zero for legacy SPL-Token mints; for Token-2022
mints with a transfer-fee extension, the epoch fee
`min(ceil(amount * basis_points / 10000), maximum_fee)`, else zero. -/
def get_transfer_fee (mint : MintAccountInfo) (pre_fee_amount : Nat) : Nat :=
  if mint.owner = TOKEN_PROGRAM_ID then 0
  else
    match mint.transfer_fee_config with
    | some cfg =>
      if cfg.transfer_fee_basis_points = 0 ∨ pre_fee_amount = 0 then 0
      else
        min ((pre_fee_amount * cfg.transfer_fee_basis_points + 9999) / 10000)
          cfg.maximum_fee
    | none => 0

/-- The accounts supplied to one `deposit_token` call.
`vault_token_account_is_ata` records whether the supplied vault token account
equals the vault's associated token account for the mint under the supplied
token program. -/
structure DepositTokenCtx where
  sender : Pubkey
  depositor : Pubkey
  mint : MintAccountInfo
  sender_token_amount : Nat
  vault_token_account_is_ata : Bool
  token_program : Pubkey
deriving DecidableEq

/-- `deposit_token(amount, id)`: requires an accepted token program, a mint
owned by it and the canonical vault associated token account; transfers
`amount` from the sender's token account to the vault (the token program
withholds the transfer fee at the destination, and fails when the sender's
balance is insufficient); emits a `DepositEvent` net of the fee. -/
def deposit_token (ctx : DepositTokenCtx) (amount : Nat) (id : List Nat)
    (s : DepState) : DepState × Except TxErr DepositEvent :=
  if ctx.token_program = TOKEN_PROGRAM_ID ∨
      ctx.token_program = TOKEN_2022_PROGRAM_ID then
    if ctx.mint.owner = ctx.token_program then
      if ctx.vault_token_account_is_ata then
        let transfer_fee := get_transfer_fee ctx.mint amount
        if amount ≤ ctx.sender_token_amount then
          ({ s with vaultToken := fun k =>
               if k = ctx.mint.key then s.vaultToken k + (amount - transfer_fee)
               else s.vaultToken k },
           .ok { depositor := ctx.depositor, token := some ctx.mint.key,
                 amount := amount - transfer_fee, id := id })
        else (s, .error .cpiFailed)
      else (s, .error (.custom .InvalidVaultTokenAccount))
    else (s, .error (.custom .InvalidMint))
  else (s, .error (.custom .InvalidTokenProgram))

-- ---------------------------------------------------------------------------
-- The depository's step relation
-- ---------------------------------------------------------------------------

/-- One transaction-level step of the relay-depository program: any
instruction of the program executed with any accounts and arguments (a
failing instruction leaves the state unchanged through the rollback
wrappers). -/
inductive Step : DepState → DepState → Prop where
  | stepSetAllocator (signer new_allocator : Pubkey) (s : DepState) :
      Step s (set_allocator signer new_allocator s).1
  | stepSetOwner (signer new_owner : Pubkey) (s : DepState) :
      Step s (set_owner signer new_owner s).1
  | stepMigrate (signer : Pubkey) (chain_id : List Nat) (s : DepState) :
      Step s (migrate_domain_separator signer chain_id s).1
  | stepDepositNative (amount : Nat) (id : List Nat) (depositor : Pubkey)
      (sender_lamports : Nat) (s : DepState) :
      Step s (deposit_native amount id depositor sender_lamports s).1
  | stepDepositToken (ctx : DepositTokenCtx) (amount : Nat) (id : List Nat)
      (s : DepState) :
      Step s (deposit_token ctx amount id s).1
  | stepExecuteTransfer (ctx : ExecuteTransferCtx) (now : Int) (min_rent : Nat)
      (request : TransferRequest) (s : DepState) :
      Step s (execute_transfer ctx now min_rent request s).1

-- ---------------------------------------------------------------------------
-- The deposit-address program (deposit-address/src/lib.rs)
-- ---------------------------------------------------------------------------

/-- The deposit-address program's `DepositAddressError` codes. -/
inductive DepositAddressError where
  | InsufficientBalance
  | Unauthorized
  | MissingTokenAccounts
deriving DecidableEq

/-- All failures a deposit-address instruction can surface: a program error,
the framework error of a bare `require_keys_eq!`, an Anchor account
constraint violation, or a failure propagated from a cross-program call. -/
inductive DAErr where
  | custom : DepositAddressError → DAErr
  | requireKeysViolated : DAErr
  | anchorConstraint : DAErr
  | cpi : TxErr → DAErr
deriving DecidableEq

/-- The `DepositAddressConfig` account. -/
structure DepositAddressConfig where
  owner : Pubkey
  relay_depository : Pubkey
  relay_depository_program : Pubkey
  vault : Pubkey
deriving DecidableEq

/-- `SweepEvent`. -/
structure SweepEvent where
  id : List Nat
  depositor : Pubkey
  deposit_address : Pubkey
  mint : Pubkey
  amount : Nat
deriving DecidableEq

/-- A deposit-address token account: its token balance and the lamports
(rent) it holds. -/
structure TokenAccountState where
  amount : Nat
  lamports : Nat
deriving DecidableEq

/-- The accounts supplied to one `sweep` call.  `deposit_address` is the PDA
derived from the id, mint and depositor seeds; the three token-side accounts
are optional exactly as in the `Sweep` context. -/
structure SweepCtx where
  depositor : Pubkey
  deposit_address : Pubkey
  deposit_address_lamports : Nat
  mint_account : Option MintAccountInfo
  deposit_address_token_account : Option TokenAccountState
  vault_token_account_present : Bool
  vault_token_account_is_ata : Bool
  token_program : Pubkey
  depositor_lamports : Nat
deriving DecidableEq

/-- `sweep(id, mint)` with the depository state it CPIs into.  For native
sweeps (`mint = Pubkey::default()`), the deposit address's full lamport
balance is deposited into the vault.  For token sweeps, the deposit
address's full token balance is deposited via `deposit_token`, then the
token account is closed with its rent lamports sent to the depositor.  A
zero available balance fails with `InsufficientBalance`.  Errors leave both
the depository state and the accounts unchanged (transaction rollback). -/
def sweep (ctx : SweepCtx) (id : List Nat) (mint : Pubkey) (s : DepState) :
    DepState × SweepCtx × Except DAErr SweepEvent :=
  if mint = 0 then
    let amount := ctx.deposit_address_lamports
    if 0 < amount then
      match deposit_native amount id ctx.depositor ctx.deposit_address_lamports s with
      | (s2, .ok _) =>
        (s2,
         { ctx with deposit_address_lamports := ctx.deposit_address_lamports - amount },
         .ok { id := id, depositor := ctx.depositor,
               deposit_address := ctx.deposit_address, mint := mint,
               amount := amount })
      | (_, .error e) => (s, ctx, .error (.cpi e))
    else (s, ctx, .error (.custom .InsufficientBalance))
  else
    match ctx.mint_account with
    | none => (s, ctx, .error (.custom .MissingTokenAccounts))
    | some mint_account =>
      match ctx.deposit_address_token_account with
      | none => (s, ctx, .error (.custom .MissingTokenAccounts))
      | some deposit_address_token_account =>
        if ctx.vault_token_account_present then
          if mint_account.key = mint then
            let amount := deposit_address_token_account.amount
            if 0 < amount then
              match deposit_token
                  { sender := ctx.deposit_address
                    depositor := ctx.depositor
                    mint := mint_account
                    sender_token_amount := deposit_address_token_account.amount
                    vault_token_account_is_ata := ctx.vault_token_account_is_ata
                    token_program := ctx.token_program } amount id s with
              | (s2, .ok _) =>
                (s2,
                 { ctx with
                     deposit_address_token_account := none
                     depositor_lamports := ctx.depositor_lamports +
                       deposit_address_token_account.lamports },
                 .ok { id := id, depositor := ctx.depositor,
                       deposit_address := ctx.deposit_address, mint := mint,
                       amount := amount })
              | (_, .error e) => (s, ctx, .error (.cpi e))
            else (s, ctx, .error (.custom .InsufficientBalance))
          else (s, ctx, .error .requireKeysViolated)
        else (s, ctx, .error (.custom .MissingTokenAccounts))

/-- An account forwarded through `remaining_accounts` to `execute`. -/
structure RemainingAccount where
  key : Pubkey
  is_writable : Bool
deriving DecidableEq

/-- An account reference in the constructed cross-program instruction. -/
structure AccountMetaInfo where
  pubkey : Pubkey
  is_signer : Bool
  is_writable : Bool
deriving DecidableEq

/-- The cross-program instruction constructed by `execute`. -/
structure BuiltInstruction where
  program_id : Pubkey
  accounts : List AccountMetaInfo
  data : List Nat
deriving DecidableEq

/-- The accounts supplied to one `execute` call.  The `allowed_program` PDA
for `target_program` exists exactly when `target_program` is in the
whitelist, and the `#[account(executable)]` constraint requires the target
to be an executable program. -/
structure ExecuteCtx where
  owner_signer : Pubkey
  deposit_address : Pubkey
  target_program : Pubkey
  target_program_executable : Bool
  remaining_accounts : List RemainingAccount
deriving DecidableEq

/-- `execute(id, token, depositor, instruction_data)`: Anchor first resolves
the whitelist PDA and the executable constraint for the target program, the
body then requires the signing owner to equal the configured owner, and only
then is the cross-program instruction constructed and invoked; among the
forwarded accounts exactly the deposit-address PDA is marked as signer.  The
returned instruction is the one passed to `invoke_signed`. -/
def execute (cfg : DepositAddressConfig) (allowed_programs : List Pubkey)
    (ctx : ExecuteCtx) (instruction_data : List Nat) :
    Except DAErr BuiltInstruction :=
  if ctx.target_program ∈ allowed_programs ∧
      ctx.target_program_executable = true then
    if ctx.owner_signer = cfg.owner then
      .ok { program_id := ctx.target_program
            accounts := ctx.remaining_accounts.map (fun account =>
              { pubkey := account.key
                is_signer := decide (account.key = ctx.deposit_address)
                is_writable := account.is_writable })
            data := instruction_data }
    else .error (.custom .Unauthorized)
  else .error .anchorConstraint

-- ---------------------------------------------------------------------------
-- Concrete example inputs used by the closed theorems below
-- ---------------------------------------------------------------------------

/-- An example deployment domain separator (chain id `"3"`). -/
def exDomain : List Nat :=
  create_domain_separator DOMAIN_NAME DOMAIN_VERSION [51] RELAY_DEPOSITORY_PROGRAM_ID

/-- An initialized depository: owner is the bootstrap key, allocator is key
`42`, the vault holds 1000 lamports and 500 of every token, and no replay
record exists. -/
def exState : DepState :=
  { rd :=
      { owner := AUTHORIZED_PUBKEY
        allocator := 42
        vault_bump := 254
        domain_separator := some exDomain }
    vaultLamports := 1000
    vaultToken := fun _ => 500
    usedRequests := fun _ => none }

/-- A native transfer request for 400 lamports to recipient `55`. -/
def exReqNative : TransferRequest :=
  { domain := exDomain, recipient := 55, token := none, amount := 400,
    nonce := 1, expiration := 1000 }

/-- A token transfer request for 600 units of mint `77` to recipient `55`
(more than the vault's token balance of 500). -/
def exReqToken : TransferRequest :=
  { domain := exDomain, recipient := 55, token := some 77, amount := 600,
    nonce := 2, expiration := 1000 }

/-- A native transfer request for 5000 lamports, exceeding the vault balance. -/
def exReqBig : TransferRequest :=
  { domain := exDomain, recipient := 55, token := none, amount := 5000,
    nonce := 3, expiration := 1000 }

/-- A native transfer request signed under a foreign domain separator. -/
def exReqForeignDomain : TransferRequest :=
  { domain := sha256Bytes [1], recipient := 55, token := none, amount := 400,
    nonce := 4, expiration := 1000 }

/-- A well-formed strict-layout ed25519 verification instruction attesting
`signer` over the hash of `r`: 16 header bytes, the signer key at offset 16,
a 64-byte signature at offset 48, and the 32-byte message at offset 112. -/
def edIxFor (signer : Pubkey) (r : TransferRequest) : SolInstruction :=
  { program_id := ED25519_PROGRAM_ID
    accounts := []
    data := [1, 0, 48, 0, 255, 255, 16, 0, 255, 255, 112, 0, 32, 0, 255, 255] ++
      pubkeyBytes signer ++ List.replicate 64 9 ++ r.get_hash }

/-- Accounts for a native `execute_transfer` of `exReqNative`. -/
def exCtxNative : ExecuteTransferCtx :=
  { executor := 88, recipient := 55, mint := none,
    recipient_token_account := none, vault_token_account_present := false,
    token_program := TOKEN_PROGRAM_ID, cur_index := 1,
    prev_ix := some (edIxFor 42 exReqNative) }

/-- Accounts for `exReqBig` with the recipient account bound correctly. -/
def exCtxBig : ExecuteTransferCtx :=
  { exCtxNative with prev_ix := some (edIxFor 42 exReqBig) }

/-- Accounts for `exReqBig` with a mismatched recipient account (`56`). -/
def exCtxBigWrongRecipient : ExecuteTransferCtx :=
  { exCtxNative with recipient := 56, prev_ix := some (edIxFor 42 exReqBig) }

/-- Accounts for `exReqForeignDomain`. -/
def exCtxForeignDomain : ExecuteTransferCtx :=
  { exCtxNative with prev_ix := some (edIxFor 42 exReqForeignDomain) }

/-- Accounts for a token `execute_transfer` of `exReqToken` in which every
guard passes but the vault's token balance (500) cannot cover the requested
600, so the token-program debit itself fails. -/
def exCtxTokenDebitFails : ExecuteTransferCtx :=
  { executor := 88, recipient := 55,
    mint := some { key := 77, owner := TOKEN_PROGRAM_ID, decimals := 6,
                   transfer_fee_config := none },
    recipient_token_account := some { owner := 55 },
    vault_token_account_present := true,
    token_program := TOKEN_PROGRAM_ID, cur_index := 1,
    prev_ix := some (edIxFor 42 exReqToken) }

/-- Accounts for `exReqToken` in which the supplied mint (`78`) does not
match the request's mint (`77`) and the recipient token account's authority
(`99`) does not match the request's recipient (`55`): both the mint binding
and the recipient binding are violated at once. -/
def exCtxTokenBothWrong : ExecuteTransferCtx :=
  { executor := 88, recipient := 55,
    mint := some { key := 78, owner := TOKEN_PROGRAM_ID, decimals := 6,
                   transfer_fee_config := none },
    recipient_token_account := some { owner := 99 },
    vault_token_account_present := true,
    token_program := TOKEN_PROGRAM_ID, cur_index := 1,
    prev_ix := some (edIxFor 42 exReqToken) }

/-- An instruction that does not target the ed25519 program. -/
def exIxWrongProgram : SolInstruction :=
  { program_id := TOKEN_PROGRAM_ID, accounts := [], data := [] }

/-- The depository state produced by `initialize` with allocator `42`,
vault bump `254`, chain id `"3"` and 1000 pre-existing vault lamports. -/
def exInitState : DepState :=
  { rd :=
      { owner := AUTHORIZED_PUBKEY
        allocator := 42
        vault_bump := 254
        domain_separator := some (create_domain_separator DOMAIN_NAME
          DOMAIN_VERSION [51] RELAY_DEPOSITORY_PROGRAM_ID) }
    vaultLamports := 1000
    vaultToken := fun _ => 0
    usedRequests := fun _ => none }

/-- A Token-2022 mint (`77`) with a 1% transfer fee capped at 1000000. -/
def exMint2022 : MintAccountInfo :=
  { key := 77, owner := TOKEN_2022_PROGRAM_ID, decimals := 6,
    transfer_fee_config := some { transfer_fee_basis_points := 100,
                                  maximum_fee := 1000000 } }

/-- Sweep accounts: depositor `60`, deposit address `61` whose token account
holds 500 units of mint `77` and 2039280 rent lamports. -/
def exSweepCtx : SweepCtx :=
  { depositor := 60, deposit_address := 61, deposit_address_lamports := 0,
    mint_account := some exMint2022,
    deposit_address_token_account := some { amount := 500, lamports := 2039280 },
    vault_token_account_present := true, vault_token_account_is_ata := true,
    token_program := TOKEN_2022_PROGRAM_ID, depositor_lamports := 10 }

/-- The same sweep accounts with an empty deposit token account. -/
def exSweepCtxEmpty : SweepCtx :=
  { exSweepCtx with deposit_address_token_account := some { amount := 0, lamports := 2039280 } }

/-- A deposit-address config owned by key `70`. -/
def exDAConfig : DepositAddressConfig :=
  { owner := 70, relay_depository := 71,
    relay_depository_program := RELAY_DEPOSITORY_PROGRAM_ID, vault := 72 }

/-- Accounts for an `execute` call: the owner signs, the target program `80`
is whitelisted and executable, and the forwarded accounts are the deposit
address `61` and an unrelated account `90`. -/
def exExecuteCtx : ExecuteCtx :=
  { owner_signer := 70, deposit_address := 61, target_program := 80,
    target_program_executable := true,
    remaining_accounts := [{ key := 61, is_writable := true },
                           { key := 90, is_writable := false }] }

-- ---------------------------------------------------------------------------
-- Helper lemmas
-- ---------------------------------------------------------------------------

@[simp] theorem setUsed_rd (s : DepState) (h : List Nat) :
    (setUsed s h).rd = s.rd := rfl

@[simp] theorem setUsed_vaultLamports (s : DepState) (h : List Nat) :
    (setUsed s h).vaultLamports = s.vaultLamports := rfl

@[simp] theorem setUsed_vaultToken (s : DepState) (h : List Nat) :
    (setUsed s h).vaultToken = s.vaultToken := rfl

/-- Marking the freshly created record used coincides with marking directly. -/
theorem setUsed_initUsed (s : DepState) (h : List Nat) :
    setUsed (initUsed s h) h = setUsed s h := by
  unfold setUsed initUsed
  congr 1
  funext h2
  by_cases hh : h2 = h <;> simp [hh]

/-- The committed state has the replay record marked used. -/
theorem commitTransfer_used (request : TransferRequest) (s : DepState) :
    (commitTransfer request s).usedRequests request.get_hash = some true := by
  unfold commitTransfer setUsed
  cases request.token <;> simp

/-- The commit does not touch the config account. -/
theorem commitTransfer_rd (request : TransferRequest) (s : DepState) :
    (commitTransfer request s).rd = s.rd := by
  unfold commitTransfer setUsed
  cases request.token <;> rfl

/-- The commit only adds the record for the request's own hash. -/
theorem commitTransfer_used_other (request : TransferRequest) (s : DepState)
    (h : List Nat) (hne : h ≠ request.get_hash) :
    (commitTransfer request s).usedRequests h = s.usedRequests h := by
  unfold commitTransfer setUsed
  cases request.token <;> simp [hne]

/-- The rollback wrapper around the source-ordered handler agrees with the
check-everything-then-commit cascade written from the specified order. -/
theorem execute_transfer_eq_spec (ctx : ExecuteTransferCtx) (now : Int)
    (min_rent : Nat) (request : TransferRequest) (s : DepState) :
    execute_transfer ctx now min_rent request s
      = executeTransferSpec ctx now min_rent request s := by
  unfold execute_transfer executeTransferRaw executeTransferSpec transferGuardError
  cases hu : s.usedRequests request.get_hash with
  | some b => simp [hu]
  | none =>
    simp only [hu, Option.isSome_none, Bool.false_eq_true, if_false]
    by_cases hexp : now < request.expiration
    · simp only [if_pos hexp]
      by_cases hci : 0 < ctx.cur_index
      · simp only [if_pos hci]
        cases hpi : ctx.prev_ix with
        | none => simp
        | some six =>
          cases hv : validate_ed25519_signature_instruction six s.rd.allocator request with
          | error e => simp [hv]
          | ok u =>
            have hcommit :
                ((match executeTransferCommit ctx min_rent request
                    request.get_hash (initUsed s request.get_hash) with
                 | (.ok ev, s2) => (s2, .ok ev)
                 | (.error e, _) => (s, .error e)) :
                   DepState × Except TxErr TransferExecutedEvent)
                  = ((match tokenGuardError ctx min_rent request s with
                     | some e => (s, .error e)
                     | none =>
                       (commitTransfer request s,
                        .ok { id := request.get_hash, request := request,
                              executor := ctx.executor })) :
                   DepState × Except TxErr TransferExecutedEvent) := by
              unfold executeTransferCommit tokenGuardError commitTransfer
              rw [setUsed_initUsed]
              cases request.token with
              | none =>
                by_cases hrec : ctx.recipient = request.recipient
                · by_cases hamt : request.amount ≤ s.vaultLamports - min_rent
                  · simp [hrec, hamt]
                  · simp [hrec, hamt]
                · simp [hrec]
              | some token_mint =>
                cases hm : ctx.mint with
                | none => simp
                | some mint =>
                  by_cases hkey : token_mint = mint.key
                  · by_cases hvp : ctx.vault_token_account_present
                    · cases hrta : ctx.recipient_token_account with
                      | none => simp [hkey, hvp]
                      | some rta =>
                        by_cases hro : rta.owner = request.recipient
                        · by_cases htp : ctx.token_program = TOKEN_PROGRAM_ID ∨
                              ctx.token_program = TOKEN_2022_PROGRAM_ID
                          · by_cases hmo : mint.owner = ctx.token_program
                            · by_cases hamt : request.amount ≤ s.vaultToken mint.key
                              · simp [hkey, hvp, hro, htp, hmo, hamt]
                              · simp [hkey, hvp, hro, htp, hmo, hamt]
                            · simp [hkey, hvp, hro, htp, hmo]
                          · simp [hkey, hvp, hro, htp]
                        · simp [hkey, hvp, hro]
                    · simp [hkey, hvp]
                  · simp [hkey]
            cases hq : s.rd.domain_separator with
            | none => simpa [hv] using hcommit
            | some expected =>
              by_cases hd : request.domain = expected
              · simpa [hv, hq, hd] using hcommit
              · simp [hv, hq, hd]
      · simp [hci]
    · simp [hexp]

/-- A failing `execute_transfer` leaves the state unchanged. -/
theorem execute_transfer_error_state (ctx : ExecuteTransferCtx) (now : Int)
    (min_rent : Nat) (request : TransferRequest) (s : DepState) (e : TxErr)
    (herr : (execute_transfer ctx now min_rent request s).2 = .error e) :
    (execute_transfer ctx now min_rent request s).1 = s := by
  rw [execute_transfer_eq_spec] at herr ⊢
  unfold executeTransferSpec at herr ⊢
  cases hg : transferGuardError ctx now min_rent request s with
  | some e2 => simp
  | none => rw [hg] at herr; simp at herr

/-- A successful `execute_transfer` yields the committed state. -/
theorem execute_transfer_ok_state (ctx : ExecuteTransferCtx) (now : Int)
    (min_rent : Nat) (request : TransferRequest) (s : DepState)
    (ev : TransferExecutedEvent)
    (hok : (execute_transfer ctx now min_rent request s).2 = .ok ev) :
    (execute_transfer ctx now min_rent request s).1 = commitTransfer request s := by
  rw [execute_transfer_eq_spec] at hok ⊢
  unfold executeTransferSpec at hok ⊢
  cases hg : transferGuardError ctx now min_rent request s with
  | some e2 => rw [hg] at hok; simp at hok
  | none => simp

/-- An `execute_transfer` against an existing replay record fails with the
account-already-in-use initialization error. -/
theorem execute_transfer_used_fails (ctx : ExecuteTransferCtx) (now : Int)
    (min_rent : Nat) (request : TransferRequest) (s : DepState)
    (hused : (s.usedRequests request.get_hash).isSome = true) :
    (execute_transfer ctx now min_rent request s).2 = .error .accountInUse := by
  rw [execute_transfer_eq_spec]
  unfold executeTransferSpec transferGuardError
  simp [hused]

/-- `execute_transfer` preserves an existing used-marked replay record. -/
theorem execute_transfer_mono_used (ctx : ExecuteTransferCtx) (now : Int)
    (min_rent : Nat) (request : TransferRequest) (s : DepState) (h : List Nat)
    (hs : s.usedRequests h = some true) :
    (execute_transfer ctx now min_rent request s).1.usedRequests h = some true := by
  rw [execute_transfer_eq_spec]
  unfold executeTransferSpec
  cases hg : transferGuardError ctx now min_rent request s with
  | some e => simpa using hs
  | none =>
    by_cases hh : h = request.get_hash
    · subst hh; simpa using commitTransfer_used request s
    · simpa [commitTransfer_used_other request s h hh] using hs

/-- `execute_transfer` does not change the config account. -/
theorem execute_transfer_rd (ctx : ExecuteTransferCtx) (now : Int)
    (min_rent : Nat) (request : TransferRequest) (s : DepState) :
    (execute_transfer ctx now min_rent request s).1.rd = s.rd := by
  rw [execute_transfer_eq_spec]
  unfold executeTransferSpec
  cases hg : transferGuardError ctx now min_rent request s with
  | some e => simp
  | none => simpa using commitTransfer_rd request s

/-- Every step preserves a used-marked replay record. -/
theorem step_mono_used {s t : DepState} (hst : Step s t) (h : List Nat)
    (hs : s.usedRequests h = some true) : t.usedRequests h = some true := by
  cases hst with
  | stepSetAllocator signer new_allocator s =>
    unfold set_allocator; split <;> simpa using hs
  | stepSetOwner signer new_owner s =>
    unfold set_owner; split <;> simpa using hs
  | stepMigrate signer chain_id s =>
    unfold migrate_domain_separator
    split
    · split <;> simpa using hs
    · simpa using hs
  | stepDepositNative amount id depositor sender_lamports s =>
    unfold deposit_native; split <;> simpa using hs
  | stepDepositToken ctx amount id s =>
    unfold deposit_token
    repeat' split
    all_goals simpa using hs
  | stepExecuteTransfer ctx now min_rent request s =>
    exact execute_transfer_mono_used ctx now min_rent request s h hs

/-- Any number of steps preserves a used-marked replay record. -/
theorem steps_mono_used {s t : DepState}
    (hst : Relation.ReflTransGen Step s t) (h : List Nat)
    (hs : s.usedRequests h = some true) : t.usedRequests h = some true := by
  induction hst with
  | refl => exact hs
  | tail _ hstep ih => exact step_mono_used hstep h ih

/-- Every step preserves the presence of a domain separator. -/
theorem step_domain_isSome {s t : DepState} (hst : Step s t)
    (hs : s.rd.domain_separator.isSome = true) :
    t.rd.domain_separator.isSome = true := by
  cases hst with
  | stepSetAllocator signer new_allocator s =>
    unfold set_allocator; split <;> simpa using hs
  | stepSetOwner signer new_owner s =>
    unfold set_owner; split <;> simpa using hs
  | stepMigrate signer chain_id s =>
    unfold migrate_domain_separator
    split
    · split
      · simpa using hs
      · simp
    · simpa using hs
  | stepDepositNative amount id depositor sender_lamports s =>
    unfold deposit_native; split <;> simpa using hs
  | stepDepositToken ctx amount id s =>
    unfold deposit_token
    repeat' split
    all_goals simpa using hs
  | stepExecuteTransfer ctx now min_rent request s =>
    rw [execute_transfer_rd]; exact hs

/-- Any number of steps preserves the presence of a domain separator. -/
theorem steps_domain_isSome {s t : DepState}
    (hst : Relation.ReflTransGen Step s t)
    (hs : s.rd.domain_separator.isSome = true) :
    t.rd.domain_separator.isSome = true := by
  induction hst with
  | refl => exact hs
  | tail _ hstep ih => exact step_domain_isSome hstep ih

/-- The signature verifier never produces the replay error code. -/
theorem validate_err_ne_already_used (six : SolInstruction) (signer : Pubkey)
    (r : TransferRequest) (e : CustomError)
    (hval : validate_ed25519_signature_instruction six signer r = .error e) :
    e ≠ CustomError.TransferRequestAlreadyUsed := by
  intro hcon
  subst hcon
  unfold validate_ed25519_signature_instruction at hval
  simp only [] at hval
  repeat' split at hval
  all_goals simp_all

/-- The per-token guards never produce the replay error code. -/
theorem tokenGuard_ne_already_used (ctx : ExecuteTransferCtx) (min_rent : Nat)
    (request : TransferRequest) (s : DepState) (e : TxErr)
    (hg : tokenGuardError ctx min_rent request s = some e) :
    e ≠ TxErr.custom .TransferRequestAlreadyUsed := by
  intro hcon
  subst hcon
  unfold tokenGuardError at hg
  repeat' split at hg
  all_goals simp_all

/-- No guard of `execute_transfer` produces the replay error code. -/
theorem guard_ne_already_used (ctx : ExecuteTransferCtx) (now : Int)
    (min_rent : Nat) (request : TransferRequest) (s : DepState) (e : TxErr)
    (hg : transferGuardError ctx now min_rent request s = some e) :
    e ≠ TxErr.custom .TransferRequestAlreadyUsed := by
  unfold transferGuardError at hg
  by_cases h1 : (s.usedRequests request.get_hash).isSome = true
  · rw [if_pos h1] at hg
    intro hcon; subst hcon; simp at hg
  · rw [if_neg h1] at hg
    by_cases h2 : now < request.expiration
    · rw [if_pos h2] at hg
      by_cases h3 : 0 < ctx.cur_index
      · rw [if_pos h3] at hg
        cases hpi : ctx.prev_ix with
        | none => rw [hpi] at hg; intro hcon; subst hcon; simp at hg
        | some six =>
          rw [hpi] at hg
          simp only [] at hg
          cases hv : validate_ed25519_signature_instruction six
              s.rd.allocator request with
          | error e2 =>
            rw [hv] at hg
            simp only [] at hg
            intro hcon; subst hcon
            simp only [Option.some.injEq] at hg
            exact validate_err_ne_already_used six s.rd.allocator request e2 hv
              (by simpa using hg)
          | ok u =>
            rw [hv] at hg
            simp only [] at hg
            cases hq : s.rd.domain_separator with
            | none =>
              rw [hq] at hg
              simp only [] at hg
              exact tokenGuard_ne_already_used ctx min_rent request s e hg
            | some d =>
              rw [hq] at hg
              simp only [] at hg
              by_cases hd : request.domain = d
              · rw [if_pos hd] at hg
                exact tokenGuard_ne_already_used ctx min_rent request s e hg
              · rw [if_neg hd] at hg
                intro hcon; subst hcon; simp at hg
      · rw [if_neg h3] at hg
        intro hcon; subst hcon; simp at hg
    · rw [if_neg h2] at hg
      intro hcon; subst hcon; simp at hg

/-- `execute_transfer` can never fail with `TransferRequestAlreadyUsed`: the
replay record it checks is always freshly `init`-created with
`is_used = false`, and a pre-existing record already aborts the account
resolution. -/
theorem execute_transfer_ne_already_used (ctx : ExecuteTransferCtx) (now : Int)
    (min_rent : Nat) (request : TransferRequest) (s : DepState) :
    (execute_transfer ctx now min_rent request s).2
      ≠ .error (.custom .TransferRequestAlreadyUsed) := by
  rw [execute_transfer_eq_spec]
  unfold executeTransferSpec
  cases hg : transferGuardError ctx now min_rent request s with
  | none => simp
  | some e =>
    have hne := guard_ne_already_used ctx now min_rent request s e hg
    simpa using hne

/-- A wrong target program makes the verifier fail with `MissingSignature`. -/
theorem validate_missing (ix : SolInstruction) (signer : Pubkey)
    (r : TransferRequest) (h1 : ¬ ix.program_id = ED25519_PROGRAM_ID) :
    validate_ed25519_signature_instruction ix signer r
      = .error .MissingSignature := by
  unfold validate_ed25519_signature_instruction
  rw [if_neg h1]

/-- Under the strict layout, the verifier reduces to the two byte
comparisons. -/
theorem validate_reduce (ix : SolInstruction) (signer : Pubkey)
    (r : TransferRequest) (h1 : ix.program_id = ED25519_PROGRAM_ID)
    (hL : ed25519LayoutOk ix) :
    validate_ed25519_signature_instruction ix signer r =
      (if (ix.data.drop 16).take 32 = pubkeyBytes signer then
        (if (ix.data.drop (u16leAt ix.data 10)).take (u16leAt ix.data 12)
            = r.get_hash
          then Except.ok () else Except.error CustomError.MessageMismatch)
       else Except.error CustomError.AllocatorSignerMismatch) := by
  obtain ⟨hA, hLen, hn, hp, h4, h8, h14, h6, h2s, hB⟩ := hL
  unfold validate_ed25519_signature_instruction
  rw [if_pos h1, if_pos ⟨hA, hLen⟩]
  simp only []
  rw [if_pos ⟨hn, hp, h4, h8, h14, h6, h2s⟩]
  rw [if_pos (by rw [hLen, h6]; decide)]
  rw [if_pos (by rw [hLen, h2s]; decide)]
  rw [if_pos (by rw [hLen]; exact hB)]
  rw [h6]

/-- A violated layout condition makes the verifier fail with
`MalformedEd25519Data`. -/
theorem validate_malformed (ix : SolInstruction) (signer : Pubkey)
    (r : TransferRequest) (h1 : ix.program_id = ED25519_PROGRAM_ID)
    (hNL : ¬ ed25519LayoutOk ix) :
    validate_ed25519_signature_instruction ix signer r
      = .error .MalformedEd25519Data := by
  unfold validate_ed25519_signature_instruction
  rw [if_pos h1]
  by_cases hAL : ix.accounts = [] ∧ ix.data.length = 144
  · rw [if_pos hAL]
    simp only []
    by_cases hH : ix.data.getD 0 0 = 1 ∧ ix.data.getD 1 0 = 0 ∧
        u16leAt ix.data 4 = 65535 ∧ u16leAt ix.data 8 = 65535 ∧
        u16leAt ix.data 14 = 65535 ∧ u16leAt ix.data 6 = 16 ∧
        u16leAt ix.data 2 = 48
    · rw [if_pos hH]
      obtain ⟨hA, hLen⟩ := hAL
      obtain ⟨hn, hp, h4, h8, h14, h6, h2s⟩ := hH
      rw [if_pos (by rw [hLen, h6]; decide)]
      rw [if_pos (by rw [hLen, h2s]; decide)]
      by_cases hB : u16leAt ix.data 10 + u16leAt ix.data 12 ≤ 144
      · exact absurd ⟨hA, hLen, hn, hp, h4, h8, h14, h6, h2s, hB⟩ hNL
      · rw [if_neg (by rw [hLen]; exact hB)]
    · rw [if_neg hH]
  · rw [if_neg hAL]

/-- A successful call passed every guard. -/
theorem execute_transfer_ok_guard (ctx : ExecuteTransferCtx) (now : Int)
    (min_rent : Nat) (r : TransferRequest) (s : DepState)
    (ev : TransferExecutedEvent)
    (hok : (execute_transfer ctx now min_rent r s).2 = .ok ev) :
    transferGuardError ctx now min_rent r s = none := by
  rw [execute_transfer_eq_spec] at hok
  unfold executeTransferSpec at hok
  cases hg : transferGuardError ctx now min_rent r s with
  | some e => rw [hg] at hok; simp at hok
  | none => rfl

/-- When every guard passes, the replay record for the hash was absent, the
request was unexpired, its domain matched any configured separator, and for
native transfers the recipient was bound and the amount solvent. -/
theorem guard_none_facts (ctx : ExecuteTransferCtx) (now : Int)
    (min_rent : Nat) (r : TransferRequest) (s : DepState)
    (hg : transferGuardError ctx now min_rent r s = none) :
    (s.usedRequests r.get_hash).isSome = false ∧ now < r.expiration ∧
    (∀ d, s.rd.domain_separator = some d → r.domain = d) ∧
    (r.token = none →
      ctx.recipient = r.recipient ∧ r.amount ≤ s.vaultLamports - min_rent) := by
  unfold transferGuardError at hg
  by_cases h1 : (s.usedRequests r.get_hash).isSome = true
  · rw [if_pos h1] at hg; simp at hg
  · rw [if_neg h1] at hg
    by_cases h2 : now < r.expiration
    · rw [if_pos h2] at hg
      by_cases h3 : 0 < ctx.cur_index
      · rw [if_pos h3] at hg
        cases hpi : ctx.prev_ix with
        | none => rw [hpi] at hg; simp at hg
        | some six =>
          rw [hpi] at hg
          simp only [] at hg
          cases hv : validate_ed25519_signature_instruction six
              s.rd.allocator r with
          | error e2 => rw [hv] at hg; simp at hg
          | ok u =>
            rw [hv] at hg
            simp only [] at hg
            have hdom : ∀ d, s.rd.domain_separator = some d → r.domain = d := by
              intro d hq
              rw [hq] at hg
              simp only [] at hg
              by_cases hd : r.domain = d
              · exact hd
              · rw [if_neg hd] at hg; simp at hg
            have htg : tokenGuardError ctx min_rent r s = none := by
              cases hq : s.rd.domain_separator with
              | none => rw [hq] at hg; simpa using hg
              | some d =>
                rw [hq] at hg
                simp only [] at hg
                rw [if_pos (hdom d hq)] at hg
                exact hg
            refine ⟨by simpa using h1, h2, hdom, ?_⟩
            intro htok
            unfold tokenGuardError at htg
            rw [htok] at htg
            simp only [] at htg
            by_cases hrec : ctx.recipient = r.recipient
            · rw [if_pos hrec] at htg
              by_cases hamt : r.amount ≤ s.vaultLamports - min_rent
              · exact ⟨hrec, hamt⟩
              · rw [if_neg hamt] at htg; simp at htg
            · rw [if_neg hrec] at htg; simp at htg
      · rw [if_neg h3] at hg; simp at hg
    · rw [if_neg h2] at hg; simp at hg

-- ---------------------------------------------------------------------------
-- Claims
-- ---------------------------------------------------------------------------

/-- C1 (amended): after one successful `execute_transfer`, every later call
whose request serializes to the same payload fails deterministically — but
with the account-already-in-use failure from re-initializing the replay
record, never with the in-body `TransferRequestAlreadyUsed` error, which the
handler cannot emit because the record it checks is always freshly created
with `is_used = false`. -/
theorem c1_replay_terminal :
    ∀ (ctx1 : ExecuteTransferCtx) (now1 : Int) (mr1 : Nat)
      (r : TransferRequest) (s : DepState) (ev : TransferExecutedEvent),
    (execute_transfer ctx1 now1 mr1 r s).2 = .ok ev →
    ∀ s2, Relation.ReflTransGen Step (execute_transfer ctx1 now1 mr1 r s).1 s2 →
    ∀ (ctx2 : ExecuteTransferCtx) (now2 : Int) (mr2 : Nat)
      (r2 : TransferRequest),
      serializeRequest r2 = serializeRequest r →
      (execute_transfer ctx2 now2 mr2 r2 s2).2 = .error .accountInUse ∧
      (execute_transfer ctx2 now2 mr2 r2 s2).2
        ≠ .error (.custom .TransferRequestAlreadyUsed) := by
  intro ctx1 now1 mr1 r s ev hok s2 hsteps ctx2 now2 mr2 r2 hser
  have hh : r2.get_hash = r.get_hash := by
    unfold TransferRequest.get_hash
    rw [hser]
  have h1 : (execute_transfer ctx1 now1 mr1 r s).1.usedRequests r.get_hash
      = some true := by
    rw [execute_transfer_ok_state ctx1 now1 mr1 r s ev hok]
    exact commitTransfer_used r s
  have h2 : s2.usedRequests r.get_hash = some true := steps_mono_used hsteps _ h1
  have h3 : (s2.usedRequests r2.get_hash).isSome = true := by rw [hh, h2]; rfl
  exact ⟨execute_transfer_used_fails ctx2 now2 mr2 r2 s2 h3,
    execute_transfer_ne_already_used ctx2 now2 mr2 r2 s2⟩

/-- C2: whenever `execute_transfer` returns an error — at any guard or
during the balance debit itself — the replay record for the request's hash
is not marked used and the vault balance is unchanged; indeed the whole
state is unchanged, by the rollback of the atomic transaction boundary. -/
theorem c2_error_leaves_state_unchanged :
    ∀ (ctx : ExecuteTransferCtx) (now : Int) (min_rent : Nat)
      (r : TransferRequest) (s : DepState) (e : TxErr),
    (execute_transfer ctx now min_rent r s).2 = .error e →
    (execute_transfer ctx now min_rent r s).1.usedRequests r.get_hash
        = s.usedRequests r.get_hash ∧
    (execute_transfer ctx now min_rent r s).1.vaultLamports = s.vaultLamports ∧
    (execute_transfer ctx now min_rent r s).1 = s := by
  intro ctx now min_rent r s e herr
  have h := execute_transfer_error_state ctx now min_rent r s e herr
  exact ⟨by rw [h], by rw [h], h⟩

/-- C3 (amended): `execute_transfer` behaves exactly like the
check-everything-then-commit cascade `executeTransferSpec`, whose guard
order is replay, expiration, signature, domain, and then per token type:
for native transfers the recipient binding followed by the solvency check;
for token transfers the mint presence and mint-match checks first, then the
recipient binding, then the token-program and mint-owner checks; the state
is committed only when every guard passes, and the first violated check
determines the error. -/
theorem c3_guard_order :
    ∀ (ctx : ExecuteTransferCtx) (now : Int) (min_rent : Nat)
      (r : TransferRequest) (s : DepState),
    execute_transfer ctx now min_rent r s
      = executeTransferSpec ctx now min_rent r s :=
  fun ctx now min_rent r s => execute_transfer_eq_spec ctx now min_rent r s

/-- C4: the signature verifier succeeds exactly when the co-located
instruction targets the ed25519 program, has the strict single-signature
layout, embeds the configured allocator key at offset 16, and embeds the
request hash as its message; each violated condition yields its specific
error (`MissingSignature`, `MalformedEd25519Data`, `AllocatorSignerMismatch`,
`MessageMismatch`), so it never succeeds on a partial field match. -/
theorem c4_signature_verifier :
    ∀ (ix : SolInstruction) (signer : Pubkey) (r : TransferRequest),
    (validate_ed25519_signature_instruction ix signer r = .ok () ↔
      (ix.program_id = ED25519_PROGRAM_ID ∧ ed25519LayoutOk ix ∧
       (ix.data.drop 16).take 32 = pubkeyBytes signer ∧
       (ix.data.drop (u16leAt ix.data 10)).take (u16leAt ix.data 12)
          = r.get_hash)) ∧
    (¬ ix.program_id = ED25519_PROGRAM_ID →
      validate_ed25519_signature_instruction ix signer r
        = .error .MissingSignature) ∧
    (ix.program_id = ED25519_PROGRAM_ID → ¬ ed25519LayoutOk ix →
      validate_ed25519_signature_instruction ix signer r
        = .error .MalformedEd25519Data) ∧
    (ix.program_id = ED25519_PROGRAM_ID → ed25519LayoutOk ix →
      ¬ (ix.data.drop 16).take 32 = pubkeyBytes signer →
      validate_ed25519_signature_instruction ix signer r
        = .error .AllocatorSignerMismatch) ∧
    (ix.program_id = ED25519_PROGRAM_ID → ed25519LayoutOk ix →
      (ix.data.drop 16).take 32 = pubkeyBytes signer →
      ¬ (ix.data.drop (u16leAt ix.data 10)).take (u16leAt ix.data 12)
          = r.get_hash →
      validate_ed25519_signature_instruction ix signer r
        = .error .MessageMismatch) := by
  intro ix signer r
  refine ⟨⟨?_, ?_⟩, ?_, ?_, ?_, ?_⟩
  · intro hok
    by_cases h1 : ix.program_id = ED25519_PROGRAM_ID
    · by_cases hL : ed25519LayoutOk ix
      · rw [validate_reduce ix signer r h1 hL] at hok
        by_cases hpk : (ix.data.drop 16).take 32 = pubkeyBytes signer
        · rw [if_pos hpk] at hok
          by_cases hmsg : (ix.data.drop (u16leAt ix.data 10)).take
              (u16leAt ix.data 12) = r.get_hash
          · exact ⟨h1, hL, hpk, hmsg⟩
          · rw [if_neg hmsg] at hok
            simp at hok
        · rw [if_neg hpk] at hok
          simp at hok
      · rw [validate_malformed ix signer r h1 hL] at hok
        simp at hok
    · rw [validate_missing ix signer r h1] at hok
      simp at hok
  · rintro ⟨h1, hL, hpk, hmsg⟩
    rw [validate_reduce ix signer r h1 hL, if_pos hpk, if_pos hmsg]
  · intro h1
    exact validate_missing ix signer r h1
  · intro h1 hNL
    exact validate_malformed ix signer r h1 hNL
  · intro h1 hL hpk
    rw [validate_reduce ix signer r h1 hL, if_neg hpk]
  · intro h1 hL hpk hmsg
    rw [validate_reduce ix signer r h1 hL, if_pos hpk, if_neg hmsg]

/-- C5 (amended): a native transfer request whose amount exceeds
`vault_balance − reserve_floor` never succeeds; it is rejected with
`InsufficientVaultBalance` whenever the replay, expiration, signature,
domain and recipient-binding checks all pass (with a mismatched recipient
account the earlier recipient-binding guard fires first and the error is
`InvalidRecipient`). -/
theorem c5_reserve_floor :
    ∀ (ctx : ExecuteTransferCtx) (now : Int) (min_rent : Nat)
      (r : TransferRequest) (s : DepState),
    r.token = none →
    s.vaultLamports - min_rent < r.amount →
    ((∀ ev, (execute_transfer ctx now min_rent r s).2 ≠ .ok ev) ∧
     (∀ six, s.usedRequests r.get_hash = none → now < r.expiration →
      0 < ctx.cur_index → ctx.prev_ix = some six →
      validate_ed25519_signature_instruction six s.rd.allocator r = .ok () →
      (∀ d, s.rd.domain_separator = some d → r.domain = d) →
      ctx.recipient = r.recipient →
      (execute_transfer ctx now min_rent r s).2
        = .error (.custom .InsufficientVaultBalance))) := by
  intro ctx now min_rent r s htok hamt
  have hamt2 : ¬ r.amount ≤ s.vaultLamports - min_rent := not_le.mpr hamt
  constructor
  · intro ev hok
    have hg := execute_transfer_ok_guard ctx now min_rent r s ev hok
    exact hamt2 ((guard_none_facts ctx now min_rent r s hg).2.2.2 htok).2
  · intro six hused hexp hci hpi hval hdom hrec
    rw [execute_transfer_eq_spec]
    unfold executeTransferSpec transferGuardError tokenGuardError
    cases hq : s.rd.domain_separator with
    | none => simp [hused, hexp, hci, hpi, hval, htok, hrec, hamt2, hq]
    | some d =>
      have hdq := hdom d hq
      simp [hused, hexp, hci, hpi, hval, htok, hrec, hamt2, hq, hdq]

/-- C6: a request whose expiration is at or before the current clock time
never succeeds, for any supplied accounts and signature instruction; it
fails with `SignatureExpired` whenever no replay record exists yet for its
hash (an existing record aborts one guard earlier, at the replay guard). -/
theorem c6_expired_fails :
    ∀ (ctx : ExecuteTransferCtx) (now : Int) (min_rent : Nat)
      (r : TransferRequest) (s : DepState),
    r.expiration ≤ now →
    ((∀ ev, (execute_transfer ctx now min_rent r s).2 ≠ .ok ev) ∧
     (s.usedRequests r.get_hash = none →
      (execute_transfer ctx now min_rent r s).2
        = .error (.custom .SignatureExpired))) := by
  intro ctx now min_rent r s hexp
  constructor
  · intro ev hok
    have hg := execute_transfer_ok_guard ctx now min_rent r s ev hok
    exact absurd (guard_none_facts ctx now min_rent r s hg).2.1 (not_lt.mpr hexp)
  · intro hused
    rw [execute_transfer_eq_spec]
    unfold executeTransferSpec transferGuardError
    simp [hused, not_lt.mpr hexp]

/-- C7: with a domain separator configured, a request whose domain field
differs from the configured separator never succeeds; a validly signed,
fresh and unexpired such request fails with `InvalidDomainSeparator`. -/
theorem c7_domain_mismatch_fails :
    ∀ (ctx : ExecuteTransferCtx) (now : Int) (min_rent : Nat)
      (r : TransferRequest) (s : DepState) (d2 : List Nat),
    s.rd.domain_separator = some d2 →
    r.domain ≠ d2 →
    ((∀ ev, (execute_transfer ctx now min_rent r s).2 ≠ .ok ev) ∧
     (∀ six, s.usedRequests r.get_hash = none → now < r.expiration →
      0 < ctx.cur_index → ctx.prev_ix = some six →
      validate_ed25519_signature_instruction six s.rd.allocator r = .ok () →
      (execute_transfer ctx now min_rent r s).2
        = .error (.custom .InvalidDomainSeparator))) := by
  intro ctx now min_rent r s d2 hq hd
  constructor
  · intro ev hok
    have hg := execute_transfer_ok_guard ctx now min_rent r s ev hok
    exact hd ((guard_none_facts ctx now min_rent r s hg).2.2.1 d2 hq)
  · intro six hused hexp hci hpi hval
    rw [execute_transfer_eq_spec]
    unfold executeTransferSpec transferGuardError
    simp [hused, hexp, hci, hpi, hval, hq, hd]

/-- C8: a token sweep of a deposit address whose token account holds a
positive balance `A` deposits the full `A` (less the token transfer fee)
into the vault's token sub-account for that mint, closes the deposit
address's token account, and refunds its rent lamports to the depositor of
the seed tuple; a sweep with zero available balance fails with
`InsufficientBalance`. -/
theorem c8_sweep_token :
    ∀ (ctx : SweepCtx) (id : List Nat) (mint : Pubkey) (s : DepState)
      (mint_account : MintAccountInfo) (datoken : TokenAccountState),
    mint ≠ 0 →
    ctx.mint_account = some mint_account →
    ctx.deposit_address_token_account = some datoken →
    ctx.vault_token_account_present = true →
    mint_account.key = mint →
    (ctx.token_program = TOKEN_PROGRAM_ID ∨
      ctx.token_program = TOKEN_2022_PROGRAM_ID) →
    mint_account.owner = ctx.token_program →
    ctx.vault_token_account_is_ata = true →
    ((0 < datoken.amount →
        (sweep ctx id mint s).1.vaultToken mint
            = s.vaultToken mint
              + (datoken.amount - get_transfer_fee mint_account datoken.amount) ∧
        (sweep ctx id mint s).2.1.deposit_address_token_account = none ∧
        (sweep ctx id mint s).2.1.depositor_lamports
            = ctx.depositor_lamports + datoken.lamports ∧
        (sweep ctx id mint s).2.2
            = .ok { id := id, depositor := ctx.depositor,
                    deposit_address := ctx.deposit_address, mint := mint,
                    amount := datoken.amount }) ∧
     (datoken.amount = 0 →
        (sweep ctx id mint s).2.2 = .error (.custom .InsufficientBalance))) := by
  intro ctx id mint s mint_account datoken hm0 hma hda hvp hkey htp hmo hata
  constructor
  · intro hpos
    unfold sweep deposit_token
    simp [hm0, hma, hda, hvp, hkey, htp, hmo, hata, hpos]
  · intro hz
    unfold sweep
    simp [hm0, hma, hda, hvp, hkey, hz]

/-- C9: the whitelisted arbitrary call constructs (and hence invokes) its
cross-program instruction only when the target program is whitelisted and
executable and the caller signs as the configured owner; among the forwarded
accounts exactly the deposit-address PDA is marked as a signer. -/
theorem c9_execute_gating :
    ∀ (cfg : DepositAddressConfig) (allowed_programs : List Pubkey)
      (ctx : ExecuteCtx) (instruction_data : List Nat)
      (instr : BuiltInstruction),
    execute cfg allowed_programs ctx instruction_data = .ok instr →
    ctx.owner_signer = cfg.owner ∧
    ctx.target_program ∈ allowed_programs ∧
    ctx.target_program_executable = true ∧
    instr.program_id = ctx.target_program ∧
    ∀ m ∈ instr.accounts, (m.is_signer = true ↔ m.pubkey = ctx.deposit_address) := by
  intro cfg allowed ctx dat instr hok
  unfold execute at hok
  by_cases hw : ctx.target_program ∈ allowed ∧ ctx.target_program_executable = true
  · rw [if_pos hw] at hok
    by_cases ho : ctx.owner_signer = cfg.owner
    · rw [if_pos ho] at hok
      simp only [Except.ok.injEq] at hok
      subst hok
      refine ⟨ho, hw.1, hw.2, rfl, ?_⟩
      intro m hmem
      simp only [List.mem_map] at hmem
      obtain ⟨a, _, rfl⟩ := hmem
      simp
    · rw [if_neg ho] at hok
      simp at hok
  · rw [if_neg hw] at hok
    simp at hok

/-- C10 (amended): `initialize` always stores a domain separator equal to
the hash of `DOMAIN_NAME`, `DOMAIN_VERSION`, the chain id and the program id
(never `None`); no instruction ever clears it, so in every reachable state
the domain check is active and `migrate_domain_separator` always fails —
with `DomainSeparatorAlreadySet` when the caller is the owner and with
`Unauthorized` otherwise. -/
theorem c10_domain_separator_permanent :
    ∀ (owner allocator : Pubkey) (vault_bump : Nat) (chain_id : List Nat)
      (vl : Nat) (s0 s : DepState),
    initialize_op owner allocator vault_bump chain_id vl = .ok s0 →
    Relation.ReflTransGen Step s0 s →
    s0.rd.domain_separator = some (create_domain_separator DOMAIN_NAME
      DOMAIN_VERSION chain_id RELAY_DEPOSITORY_PROGRAM_ID) ∧
    s.rd.domain_separator.isSome = true ∧
    (∀ (signer : Pubkey) (chain2 : List Nat),
      (migrate_domain_separator signer chain2 s).2 =
        if signer = s.rd.owner then .error (.custom .DomainSeparatorAlreadySet)
        else .error (.custom .Unauthorized)) := by
  intro owner allocator vault_bump chain_id vl s0 s hinit hsteps
  unfold initialize_op at hinit
  by_cases hau : owner = AUTHORIZED_PUBKEY
  · rw [if_pos hau] at hinit
    simp only [Except.ok.injEq] at hinit
    subst hinit
    have hds : s.rd.domain_separator.isSome = true :=
      steps_domain_isSome hsteps rfl
    refine ⟨rfl, hds, ?_⟩
    intro signer chain2
    unfold migrate_domain_separator
    by_cases hs : signer = s.rd.owner
    · cases hq : s.rd.domain_separator with
      | none => rw [hq] at hds; simp at hds
      | some d => simp [hs, hq]
    · simp [hs]
  · rw [if_neg hau] at hinit
    simp at hinit

-- ---------------------------------------------------------------------------
-- Witnesses and counterexamples
-- ---------------------------------------------------------------------------

/-- C1 counterexample to the claim as stated: after a successful execution
of `exReqNative`, resubmitting the very same request does fail, but with the
account-already-in-use initialization failure, not with
`TransferRequestAlreadyUsed`. -/
theorem c1_counterexample :
    (execute_transfer exCtxNative 0 100 exReqNative exState).2
        = .ok { id := exReqNative.get_hash, request := exReqNative,
                executor := 88 } ∧
    (execute_transfer exCtxNative 0 100 exReqNative
        (execute_transfer exCtxNative 0 100 exReqNative exState).1).2
        ≠ .error (.custom .TransferRequestAlreadyUsed) ∧
    (execute_transfer exCtxNative 0 100 exReqNative
        (execute_transfer exCtxNative 0 100 exReqNative exState).1).2
        = .error .accountInUse := by
  decide

/-- C1 witness: the amended replay theorem applied to the concrete
successful execution of `exReqNative` followed by no further steps. -/
theorem c1_witness :
    (execute_transfer exCtxNative 0 100 exReqNative
        (execute_transfer exCtxNative 0 100 exReqNative exState).1).2
        = .error .accountInUse ∧
    (execute_transfer exCtxNative 0 100 exReqNative
        (execute_transfer exCtxNative 0 100 exReqNative exState).1).2
        ≠ .error (.custom .TransferRequestAlreadyUsed) :=
  c1_replay_terminal exCtxNative 0 100 exReqNative exState
    { id := exReqNative.get_hash, request := exReqNative, executor := 88 }
    (by decide) (execute_transfer exCtxNative 0 100 exReqNative exState).1
    Relation.ReflTransGen.refl exCtxNative 0 100 exReqNative rfl

/-- C2 witness: a call in which every guard passes but the token debit
itself fails (the vault holds 500 < 600 of mint 77) leaves the replay
record and the vault balance unchanged. -/
theorem c2_witness :
    (execute_transfer exCtxTokenDebitFails 0 100 exReqToken exState).2
        = .error .cpiFailed ∧
    (execute_transfer exCtxTokenDebitFails 0 100 exReqToken exState).1.usedRequests
        exReqToken.get_hash = exState.usedRequests exReqToken.get_hash ∧
    (execute_transfer exCtxTokenDebitFails 0 100 exReqToken exState).1.vaultLamports
        = exState.vaultLamports :=
  ⟨by decide,
   (c2_error_leaves_state_unchanged exCtxTokenDebitFails 0 100 exReqToken
      exState .cpiFailed (by decide)).1,
   (c2_error_leaves_state_unchanged exCtxTokenDebitFails 0 100 exReqToken
      exState .cpiFailed (by decide)).2.1⟩

/-- C3 counterexample to the claim as stated: with both the mint binding
and the recipient binding violated at once — and replay, expiration,
signature and domain all passing — the error is `InvalidMint`, not the
`InvalidRecipient` demanded by the claimed order in which the recipient
binding precedes the token binding. -/
theorem c3_counterexample :
    exState.usedRequests exReqToken.get_hash = none ∧
    (0 : Int) < exReqToken.expiration ∧
    validate_ed25519_signature_instruction (edIxFor 42 exReqToken)
        exState.rd.allocator exReqToken = .ok () ∧
    exState.rd.domain_separator = some exReqToken.domain ∧
    exCtxTokenBothWrong.recipient_token_account = some { owner := 99 } ∧
    exReqToken.recipient = 55 ∧ (99 : Nat) ≠ 55 ∧
    (execute_transfer exCtxTokenBothWrong 0 100 exReqToken exState).2
        = .error (.custom .InvalidMint) ∧
    (execute_transfer exCtxTokenBothWrong 0 100 exReqToken exState).2
        ≠ .error (.custom .InvalidRecipient) := by
  decide

/-- C4 witness: the verifier theorem applied to a concrete instruction with
the wrong target program and to a concrete fully valid instruction. -/
theorem c4_witness :
    validate_ed25519_signature_instruction exIxWrongProgram 42 exReqNative
        = .error .MissingSignature ∧
    validate_ed25519_signature_instruction (edIxFor 42 exReqNative) 42
        exReqNative = .ok () :=
  ⟨(c4_signature_verifier exIxWrongProgram 42 exReqNative).2.1 (by decide),
   (c4_signature_verifier (edIxFor 42 exReqNative) 42 exReqNative).1.mpr
     (by decide)⟩

/-- C5 counterexample to the claim as stated: `exReqBig` asks for 5000 with
`vault_balance − reserve_floor = 900`, and replay, expiration, signature and
domain all pass, yet with a mismatched recipient account the call fails with
`InvalidRecipient` rather than the claimed insufficient-balance error. -/
theorem c5_counterexample :
    exState.usedRequests exReqBig.get_hash = none ∧
    (0 : Int) < exReqBig.expiration ∧
    validate_ed25519_signature_instruction (edIxFor 42 exReqBig)
        exState.rd.allocator exReqBig = .ok () ∧
    exState.rd.domain_separator = some exReqBig.domain ∧
    exState.vaultLamports - 100 < exReqBig.amount ∧
    (execute_transfer exCtxBigWrongRecipient 0 100 exReqBig exState).2
        = .error (.custom .InvalidRecipient) ∧
    (execute_transfer exCtxBigWrongRecipient 0 100 exReqBig exState).2
        ≠ .error (.custom .InsufficientVaultBalance) := by
  decide

/-- C5 witness: the amended reserve-floor theorem applied to `exReqBig` with
the recipient bound correctly. -/
theorem c5_witness :
    (execute_transfer exCtxBig 0 100 exReqBig exState).2
        = .error (.custom .InsufficientVaultBalance) :=
  (c5_reserve_floor exCtxBig 0 100 exReqBig exState rfl (by decide)).2
    (edIxFor 42 exReqBig) (by decide) (by decide) (by decide) rfl (by decide)
    (fun d hd => Option.some.inj hd) rfl

/-- C6 witness: the expiration theorem applied to `exReqNative` at clock
time 2000, past its expiration 1000. -/
theorem c6_witness :
    (execute_transfer exCtxNative 2000 100 exReqNative exState).2
        = .error (.custom .SignatureExpired) :=
  (c6_expired_fails exCtxNative 2000 100 exReqNative exState (by decide)).2
    (by decide)

/-- C7 witness: the domain theorem applied to a validly signed request
carrying a foreign domain against the `exDomain` deployment. -/
theorem c7_witness :
    (execute_transfer exCtxForeignDomain 0 100 exReqForeignDomain exState).2
        = .error (.custom .InvalidDomainSeparator) :=
  (c7_domain_mismatch_fails exCtxForeignDomain 0 100 exReqForeignDomain
    exState exDomain rfl (by decide)).2 (edIxFor 42 exReqForeignDomain)
    (by decide) (by decide) (by decide) rfl (by decide)

/-- C8 witness: the sweep theorem applied to a 500-unit balance with a 1%
Token-2022 transfer fee (fee 5), and to a zero balance. -/
theorem c8_witness :
    (sweep exSweepCtx [5] 77 exState).1.vaultToken 77
        = exState.vaultToken 77
          + (500 - get_transfer_fee exMint2022 500) ∧
    (sweep exSweepCtx [5] 77 exState).2.1.deposit_address_token_account
        = none ∧
    (sweep exSweepCtx [5] 77 exState).2.1.depositor_lamports
        = exSweepCtx.depositor_lamports + 2039280 ∧
    (sweep exSweepCtx [5] 77 exState).2.2
        = .ok { id := [5], depositor := 60, deposit_address := 61, mint := 77,
                amount := 500 } ∧
    (sweep exSweepCtxEmpty [5] 77 exState).2.2
        = .error (.custom .InsufficientBalance) :=
  have h1 := c8_sweep_token exSweepCtx [5] 77 exState exMint2022
    { amount := 500, lamports := 2039280 } (by decide) rfl rfl rfl rfl
    (Or.inr rfl) rfl rfl
  have h2 := c8_sweep_token exSweepCtxEmpty [5] 77 exState exMint2022
    { amount := 0, lamports := 2039280 } (by decide) rfl rfl rfl rfl
    (Or.inr rfl) rfl rfl
  ⟨(h1.1 (by decide)).1, (h1.1 (by decide)).2.1, (h1.1 (by decide)).2.2.1,
   (h1.1 (by decide)).2.2.2, h2.2 rfl⟩

/-- C9 witness: the gating theorem applied to a concrete successful
`execute` call. -/
theorem c9_witness :
    exExecuteCtx.owner_signer = exDAConfig.owner ∧
    exExecuteCtx.target_program ∈ [(80 : Pubkey)] ∧
    exExecuteCtx.target_program_executable = true :=
  have h := c9_execute_gating exDAConfig [80] exExecuteCtx [7]
    { program_id := 80
      accounts := [{ pubkey := 61, is_signer := true, is_writable := true },
                   { pubkey := 90, is_signer := false, is_writable := false }]
      data := [7] } (by decide)
  ⟨h.1, h.2.1, h.2.2.1⟩

/-- C10 counterexample to the claim as stated: on the freshly initialized
`exInitState`, a `migrate_domain_separator` call by the non-owner `9` fails
with `Unauthorized`, not with `DomainSeparatorAlreadySet`. -/
theorem c10_counterexample :
    initialize_op AUTHORIZED_PUBKEY 42 254 [51] 1000 = .ok exInitState ∧
    (migrate_domain_separator 9 [52] exInitState).2
        = .error (.custom .Unauthorized) ∧
    (migrate_domain_separator 9 [52] exInitState).2
        ≠ .error (.custom .DomainSeparatorAlreadySet) :=
  ⟨rfl, by decide, by decide⟩

/-- C10 witness: the permanence theorem applied to the concrete initialized
state and an owner-signed migration attempt. -/
theorem c10_witness :
    exInitState.rd.domain_separator
        = some (create_domain_separator DOMAIN_NAME DOMAIN_VERSION [51]
            RELAY_DEPOSITORY_PROGRAM_ID) ∧
    exInitState.rd.domain_separator.isSome = true ∧
    (migrate_domain_separator AUTHORIZED_PUBKEY [52] exInitState).2
        = .error (.custom .DomainSeparatorAlreadySet) :=
  have h := c10_domain_separator_permanent AUTHORIZED_PUBKEY 42 254 [51] 1000
    exInitState exInitState rfl Relation.ReflTransGen.refl
  ⟨h.1, h.2.1, by simpa using h.2.2 AUTHORIZED_PUBKEY [52]⟩
